import Mathlib

/- Shallow embedding of the natural-language-to-SQL pipeline of this
repository: the safety validator (src/Model/safety_validator.py), the
conversation manager (src/Model/conversation_manager.py) and the
deterministic parts of the query generator (src/Model/sql_generator.py).
The language model behind the pipeline call is treated as an opaque
oracle; the sqlparse structural pass inside SafetyValidator.validate is
abstracted by an explicit parameter, and theorems quantify over it. -/

/- ## Python string primitives
Character-level models of the Python string operations used by the code:
str.strip, str.upper, str.lower, str.split, str.find, substring tests and
slicing. Case mapping covers ASCII and the basic Cyrillic block, which is
all the repository ever feeds these functions. -/

def pyIsSpace (c : Char) : Bool :=
  c == ' ' || c == '\t' || c == '\n' || c == '\r' || c == Char.ofNat 11 || c == Char.ofNat 12

def pyUpperChar (c : Char) : Char :=
  if 'a' ≤ c ∧ c ≤ 'z' then Char.ofNat (c.toNat - 32)
  else if 'а' ≤ c ∧ c ≤ 'я' then Char.ofNat (c.toNat - 32)
  else if c = 'ё' then 'Ё'
  else c

def pyLowerChar (c : Char) : Char :=
  if 'A' ≤ c ∧ c ≤ 'Z' then Char.ofNat (c.toNat + 32)
  else if 'А' ≤ c ∧ c ≤ 'Я' then Char.ofNat (c.toNat + 32)
  else if c = 'Ё' then 'ё'
  else c

def pyUpper (s : String) : String := String.mk (s.toList.map pyUpperChar)

def pyLower (s : String) : String := String.mk (s.toList.map pyLowerChar)

def pyStripList (l : List Char) : List Char :=
  ((l.dropWhile pyIsSpace).reverse.dropWhile pyIsSpace).reverse

def pyStrip (s : String) : String := String.mk (pyStripList s.toList)

def pyStripLeftList (l : List Char) : List Char := l.dropWhile pyIsSpace

-- Exact-case prefix test on character lists.
def isPre : List Char → List Char → Bool
  | [], _ => true
  | _ :: _, [] => false
  | p :: ps, c :: cs => p == c && isPre ps cs

-- Case-insensitive prefix test, as produced by re.IGNORECASE.
def isPreCI : List Char → List Char → Bool
  | [], _ => true
  | _ :: _, [] => false
  | p :: ps, c :: cs => pyUpperChar p == pyUpperChar c && isPreCI ps cs

def findSubAux (pat : List Char) : List Char → Nat → Option Nat
  | [], i => if pat.isEmpty then some i else none
  | c :: cs, i => if isPre pat (c :: cs) then some i else findSubAux pat cs (i + 1)

-- First occurrence of pat in text, as Python str.find (None for -1).
def findSub (pat text : List Char) : Option Nat := findSubAux pat text 0

def findSubCIAux (pat : List Char) : List Char → Nat → Option Nat
  | [], i => if pat.isEmpty then some i else none
  | c :: cs, i => if isPreCI pat (c :: cs) then some i else findSubCIAux pat cs (i + 1)

def findSubCI (pat text : List Char) : Option Nat := findSubCIAux pat text 0

-- Python membership test: pat in s.
def containsSub (pat s : String) : Bool := (findSub pat.toList s.toList).isSome

def containsSubCI (pat s : String) : Bool := (findSubCI pat.toList s.toList).isSome

def pySplitWsAux : List Char → List Char → List String
  | [], acc => if acc.isEmpty then [] else [String.mk acc.reverse]
  | c :: cs, acc =>
    if pyIsSpace c then
      if acc.isEmpty then pySplitWsAux cs []
      else String.mk acc.reverse :: pySplitWsAux cs []
    else pySplitWsAux cs (c :: acc)

-- Python str.split() with no argument: split on whitespace runs.
def pySplitWs (s : String) : List String := pySplitWsAux s.toList []

def splitLinesAux : List Char → List Char → List String
  | [], acc => [String.mk acc.reverse]
  | c :: cs, acc =>
    if c == '\n' then String.mk acc.reverse :: splitLinesAux cs []
    else splitLinesAux cs (c :: acc)

-- Python str.split with a newline separator, keeping empty segments.
def splitLines (s : String) : List String := splitLinesAux s.toList []

def strTake (n : Nat) (s : String) : String := String.mk (s.toList.take n)

def strDrop (n : Nat) (s : String) : String := String.mk (s.toList.drop n)

def strEndsWithSemi (s : String) : Bool :=
  match s.toList.getLast? with
  | some c => c == ';'
  | none => false

/- ## SafetyValidator (src/Model/safety_validator.py) -/

-- DANGEROUS_KEYWORDS, lines 15-19.
def dangerousKeywords : List String :=
  ["DROP", "DELETE", "UPDATE", "INSERT", "ALTER",
   "TRUNCATE", "CREATE", "EXEC", "EXECUTE", "GRANT",
   "REVOKE", "MERGE", "REPLACE"]

/- Line 47: re.sub of full-line comments in MULTILINE mode. A line whose
first characters after leading whitespace are two hyphens has its whole
matched span removed; the line separator itself is kept, so that line
becomes empty. Trailing same-line comments are not matched. -/
def removeLineComments (s : String) : String :=
  String.intercalate "\n"
    ((splitLines s).map (fun line =>
      if isPre ['-', '-'] (pyStripLeftList line.toList) then "" else line))

/- Line 48: re.sub of non-greedy block comments in DOTALL mode. Each
leftmost opener paired with the nearest closer after it is removed; an
opener with no closer after it stays. Fuel is the list length; every
recursive call consumes at least one character. -/
def removeBlockCommentsAux : Nat → List Char → List Char
  | 0, l => l
  | _ + 1, [] => []
  | fuel + 1, c :: cs =>
    if isPre ['/', '*'] (c :: cs) then
      match findSub ['*', '/'] (cs.drop 1) with
      | some i => removeBlockCommentsAux fuel ((cs.drop 1).drop (i + 2))
      | none => c :: cs
    else c :: removeBlockCommentsAux fuel cs

def removeBlockComments (s : String) : String :=
  String.mk (removeBlockCommentsAux s.toList.length s.toList)

-- Lines 47-49: query_clean.
def cleanQuery (query : String) : String :=
  pyStrip (removeBlockComments (removeLineComments query))

/- validate, lines 31-77. The sqlparse pass of lines 56-68 (parse,
_is_safe_statement, and the exception handler) is abstracted by pc: it
returns none when that pass accepts and some message when any of its
rejection paths fires. Everything else follows the source line by line. -/
def validateWith (pc : String → Option String) (query : String) : Bool × String :=
  if pyStrip query = "" then (false, "Empty query provided")
  else
    let query_clean := cleanQuery query
    let query_upper := pyUpper query_clean
    if !(isPre "SELECT".toList query_upper.toList) then
      (false, "Only SELECT queries are allowed")
    else
      match pc query_clean with
      | some msg => (false, msg)
      | none =>
        let query_words := pySplitWs query_upper
        let dangerous_found := query_words.filter (fun w => dangerousKeywords.contains w)
        if dangerous_found.isEmpty then (true, "")
        else
          (false, "Query contains dangerous keywords: "
                    ++ String.intercalate ", " dangerous_found.dedup)

-- The two extreme behaviours of the abstracted sqlparse pass.
def pcAllow : String → Option String := fun _ => none

def pcDeny : String → Option String := fun _ => some "Query contains unsafe operations"

-- sanitize_input, lines 94-124: dangerous_patterns in source order; the
-- first pattern contained in the upper-cased input raises ValueError.
def sanitizePatterns : List String :=
  ["; DROP", "; DELETE", "; UPDATE", "; INSERT", "UNION SELECT",
   "1=1", "OR 1=1", "--", "/*", "*/"]

def sanitizeInput (userInput : String) : Except String String :=
  let input_upper := pyUpper userInput
  match sanitizePatterns.find? (fun p => containsSub p input_upper) with
  | some p => Except.error ("Input contains potentially dangerous pattern: " ++ p)
  | none => Except.ok (pyStrip userInput)

/- ## ConversationManager (src/Model/conversation_manager.py)
A turn also carries a wall-clock timestamp and an optional context dict in
the source; both are external inputs that no decision in the code reads,
so the model keeps only the two string fields. -/

structure Turn where
  userInput : String
  sqlQuery : String
deriving DecidableEq, Repr

structure ConvState where
  maxHistory : Nat
  history : List Turn
  lastQuery : Option String
  lastSql : Option String
deriving DecidableEq, Repr

def ConvState.initial (maxHistory : Nat := 10) : ConvState :=
  { maxHistory := maxHistory, history := [], lastQuery := none, lastSql := none }

-- Python slice l[-m:] on a list, including the m = 0 quirk where -0 is 0
-- and the slice is the whole list.
def pyNegSliceLast {α : Type} (m : Nat) (l : List α) : List α :=
  if m = 0 then l else l.drop (l.length - m)

-- add_turn, lines 23-45.
def addTurn (st : ConvState) (userInput sqlQuery : String) : ConvState :=
  let h := st.history ++ [{ userInput := userInput, sqlQuery := sqlQuery }]
  { st with
    history := if st.maxHistory < h.length then pyNegSliceLast st.maxHistory h else h
    lastQuery := some sqlQuery
    lastSql := some sqlQuery }

def recordAll (st : ConvState) (ts : List (String × String)) : ConvState :=
  ts.foldl (fun s p => addTurn s p.1 p.2) st

-- follow_up_indicators, lines 60-76, in source order.
def followUpIndicators : List String :=
  ["now show me", "now show", "show me", "also show", "and show", "then show",
   "next show", "also", "and", "then", "next", "filter", "refine", "narrow", "expand"]

-- Python truthiness of an optional string: None and the empty string are falsy.
def pyFalsyStrOpt : Option String → Bool
  | none => true
  | some s => s == ""

-- is_follow_up, lines 47-79.
def isFollowUp (st : ConvState) (userInput : String) : Bool :=
  if pyFalsyStrOpt st.lastQuery then false
  else
    let input_lower := pyStrip (pyLower userInput)
    followUpIndicators.any (fun ind => containsSub ind input_lower)

/-- Modelled from the spec: the indicator-phrase list exactly as written in
the specification (section 4.3 and the testable properties), used only to
compare the specified detector with the implemented one. -/
def specFollowUpIndicators : List String :=
  ["now show me", "show me", "also show", "and show", "then show", "next show",
   "also", "and", "then", "next", "filter", "refine", "narrow", "expand"]

/-- Modelled from the spec: the follow-up detector using the indicator list
of the specification, with the same containment semantics. -/
def specIsFollowUp (st : ConvState) (userInput : String) : Bool :=
  if pyFalsyStrOpt st.lastQuery then false
  else specFollowUpIndicators.any (fun ind => containsSub ind (pyStrip (pyLower userInput)))

def clearHistory (st : ConvState) : ConvState :=
  { st with history := [], lastQuery := none, lastSql := none }

/- ## SqlExtractor (_extract_sql, src/Model/sql_generator.py lines 257-391)
Each Python regex in the method is a fixed pattern, modelled by a direct
scanner with the matching regex-engine semantics: leftmost match, greedy
whitespace runs, lazy bodies stopped at the earliest terminator position,
and the dollar anchor matching at the end of the string or just before a
final newline. -/

-- A terminator of the lazy body in the regex of line 295:
-- two newlines, a newline followed by an ASCII letter (the character
-- class is case-insensitive there), either marker, or the dollar anchor.
def term1At (l : List Char) : Bool :=
  l.isEmpty || l == ['\n']
    || isPre ['\n', '\n'] l
    || (match l with | '\n' :: d :: _ => d.isAlpha | _ => false)
    || isPreCI "USER QUESTION:".toList l
    || isPreCI "SQL QUERY:".toList l

-- Take characters of the lazy body until a terminator matches at the
-- current suffix.
def takeUntil (term : List Char → Bool) : List Char → List Char
  | [] => []
  | c :: cs => if term (c :: cs) then [] else c :: takeUntil term cs

-- re.search of line 294-298: content after the first case-insensitive
-- label, with the greedy whitespace run excluded from the group.
def searchSqlQueryLabel (text : String) : Option String :=
  match findSubCI "SQL QUERY:".toList text.toList with
  | none => none
  | some p =>
    let rest := text.toList.drop (p + 10)
    some (String.mk (takeUntil term1At (rest.dropWhile pyIsSpace)))

def anyPreCI (pats : List String) (l : List Char) : Bool :=
  pats.any (fun p => isPreCI p.toList l)

-- Terminators of the regex at lines 305-309.
def term2At (l : List Char) : Bool :=
  l.isEmpty || l == ['\n']
    || isPre ['\n', '\n'] l
    || (match l with
        | '\n' :: rest =>
          anyPreCI ["Please", "Note", "Explanation", "This", "The query",
                    "USER QUESTION", "SQL QUERY"] rest
        | _ => false)
    || isPreCI "USER QUESTION:".toList l
    || isPreCI "SQL QUERY:".toList l

-- First position where SELECT is followed by at least one whitespace
-- character, as required by the pattern SELECT backslash-s-plus.
def findSelectWsPos : List Char → Nat → Option Nat
  | [], _ => none
  | c :: cs, i =>
    if isPreCI "SELECT".toList (c :: cs)
        && (match (c :: cs).drop 6 with | d :: _ => pyIsSpace d | [] => false) then some i
    else findSelectWsPos cs (i + 1)

def searchSelect1 (text : String) : Option String :=
  match findSelectWsPos text.toList 0 with
  | none => none
  | some p =>
    let tail := text.toList.drop p
    let rest := tail.drop 6
    some (String.mk (tail.take 6 ++ rest.takeWhile pyIsSpace
                      ++ takeUntil term2At (rest.dropWhile pyIsSpace)))

-- Terminators of the regex at line 314; the semicolon is consumed by the
-- non-capturing group, so it is excluded from the match.
def term3At (l : List Char) : Bool :=
  l.isEmpty || l == ['\n']
    || (match l with | ';' :: _ => true | _ => false)
    || isPreCI "USER QUESTION:".toList l
    || isPreCI "SQL QUERY:".toList l
    || isPre ['\n', '\n'] l

def searchSelect2 (text : String) : Option String :=
  match findSubCI "SELECT".toList text.toList with
  | none => none
  | some p =>
    let tail := text.toList.drop p
    some (String.mk (tail.take 6 ++ takeUntil term3At (tail.drop 6)))

-- The pattern list of line 324, in source order.
def lastResortMarkers : List String :=
  ["\n\nUSER QUESTION:", "\n\nSQL QUERY:", "\nUSER QUESTION:", "\nSQL QUERY:",
   "USER QUESTION:", "SQL QUERY:", "\n\n", "\nPlease", "\nNote", "\nExplanation"]

def beforeFirst (pat s : String) : String :=
  match findSub pat.toList s.toList with
  | some p => strTake p s
  | none => s

/- Lines 323-327: the first pattern whose upper-cased form occurs in the
upper-cased sql wins; the text before its first exact-case occurrence is
kept, else before its first upper-cased occurrence, else the split leaves
the string whole; the kept part is stripped and the loop breaks. -/
def lastResortCutAux : List String → String → String
  | [], sql => sql
  | pat :: pats, sql =>
    if containsSub (pyUpper pat) (pyUpper sql) then
      if containsSub pat sql then pyStrip (beforeFirst pat sql)
      else if containsSub (pyUpper pat) sql then pyStrip (beforeFirst (pyUpper pat) sql)
      else pyStrip sql
    else lastResortCutAux pats sql

/- Lines 277-291: find the first occurrence of either marker after
position zero and truncate there; a marker at position zero is part of
the echoed prompt and does not truncate. -/
def markerCut (text0 : String) : String :=
  let len := text0.toList.length
  let up := pyUpper text0
  let uq := match findSub "USER QUESTION:".toList up.toList with
            | some p => if 0 < p then p else len
            | none => len
  let sq := match findSub "SQL QUERY:".toList up.toList with
            | some p => if 0 < p then p else len
            | none => len
  let cutoff := min (min len uq) sq
  if cutoff < len then pyStrip (strTake cutoff text0) else text0

-- Lines 293-329: the ordered chain of recovery strategies.
def extractCandidate (text : String) : String :=
  match searchSqlQueryLabel text with
  | some g => pyStrip g
  | none =>
    match searchSelect1 text with
    | some g => pyStrip g
    | none =>
      match searchSelect2 text with
      | some g => pyStrip g
      | none =>
        match findSub "SELECT".toList (pyUpper text).toList with
        | some p => lastResortCutAux lastResortMarkers (pyStrip (strDrop p text))
        | none => pyStrip text

/- Lines 332-338: re.sub removing every occurrence of a token together
with the greedy whitespace run following it. Fuel is the list length;
every step consumes at least one character. -/
def removeTokWsAux (ci : Bool) (pat : List Char) : Nat → List Char → List Char
  | 0, l => l
  | _ + 1, [] => []
  | fuel + 1, c :: cs =>
    if (if ci then isPreCI pat (c :: cs) else isPre pat (c :: cs)) then
      removeTokWsAux ci pat fuel (((c :: cs).drop pat.length).dropWhile pyIsSpace)
    else c :: removeTokWsAux ci pat fuel cs

def removeTokWs (ci : Bool) (pat : String) (s : String) : String :=
  String.mk (removeTokWsAux ci pat.toList s.toList.length s.toList)

-- explanation_patterns, lines 342-349.
def explainWords : List String :=
  ["Please", "Note", "Explanation", "This query", "The query", "This will", "This returns"]

def minOpt : List Nat → Option Nat
  | [] => none
  | n :: ns => match minOpt ns with | none => some n | some m => some (min n m)

-- First pattern: the text before the earliest case-insensitive occurrence
-- of any explanation word, stripped; unchanged when no word occurs.
def explainCut1 (sql : String) : String :=
  match minOpt (explainWords.filterMap (fun w => findSubCI w.toList sql.toList)) with
  | none => sql
  | some p => pyStrip (strTake p sql)

-- Second pattern: the text before the first double hyphen, stripped.
def explainCut2 (sql : String) : String :=
  match findSub ['-', '-'] sql.toList with
  | none => sql
  | some p => pyStrip (strTake p sql)

def sqlLineKeywords : List String :=
  ["SELECT", "FROM", "WHERE", "GROUP", "ORDER", "HAVING", "JOIN"]

def lineStartsExplain (line : String) : Bool :=
  anyPreCI ["Please", "Note", "Explanation", "This", "The query", "This will",
            "This returns"] line.toList

-- re.sub removing everything from the first case-insensitive occurrence
-- of pat to the end of the string.
def cutAtCI (pat s : String) : String :=
  match findSubCI pat.toList s.toList with
  | some p => strTake p s
  | none => s

/- Lines 352-378: the line-by-line rescan. Empty lines are skipped;
marker lines, explanation lines and non-SQL hash lines stop the scan; a
chat-token line is truncated at the closing instruction token, kept when
something remains, and stops the scan either way. -/
def lineScanAux : List String → List String
  | [] => []
  | l :: ls =>
    let line := pyStrip l
    if line = "" then lineScanAux ls
    else if containsSub "USER QUESTION:" (pyUpper line)
            || containsSub "SQL QUERY:" (pyUpper line) then []
    else if containsSub "[/INST]" line || containsSub "[INST]" line then
      (if pyStrip (cutAtCI "[/INST]" line) = "" then []
       else [pyStrip (cutAtCI "[/INST]" line)])
    else if lineStartsExplain line then []
    else if isPre ['#'] line.toList
            && !(sqlLineKeywords.any (fun kw => containsSub kw (pyUpper line))) then []
    else line :: lineScanAux ls

-- _extract_sql, lines 257-391, assembled in source order.
def extractSql (generated_text : String) : String :=
  if generated_text = "" then ""
  else if pyStrip generated_text = "" then ""
  else
    let text := markerCut (pyStrip generated_text)
    let sql := extractCandidate text
    let sql := removeTokWs true "```sql" sql
    let sql := removeTokWs false "```" sql
    let sql := removeTokWs true "[/INST]" sql
    let sql := removeTokWs true "[INST]" sql
    let sql := removeTokWs true "<s>" sql
    let sql := removeTokWs true "</s>" sql
    let sql := explainCut1 sql
    let sql := explainCut2 sql
    let sql := pyStrip (String.intercalate " " (lineScanAux (splitLines sql)))
    let sql := pyStrip (cutAtCI "SQL QUERY:" (cutAtCI "USER QUESTION:" sql))
    if sql = "" then sql
    else if strEndsWithSemi sql then sql
    else sql ++ ";"

/- ## QueryPipeline (generate and _is_sql_related_query,
src/Model/sql_generator.py lines 393-556) -/

-- greetings, lines 406-414, in source order.
def greetingsList : List String :=
  ["привет", "hello", "hi", "hey", "здравствуй", "добрый",
   "как дела", "how are you", "как поживаешь", "что нового",
   "спасибо", "thanks", "thank you", "благодарю",
   "пока", "bye", "до свидания", "goodbye",
   "как тебя зовут", "what is your name", "who are you",
   "что ты умеешь", "what can you do", "что ты делаешь",
   "помощь", "help", "помоги", "help me"]

-- sql_keywords, lines 422-434, in source order, duplicates kept.
def sqlKeywordsList : List String :=
  ["select", "show", "find", "get", "count", "sum", "avg", "max", "min",
   "where", "from", "table", "database", "query",
   "транзакц", "transaction", "данные", "data", "записи", "records",
   "сколько", "how many", "count", "посчитай", "calculate",
   "покажи", "show me", "выведи", "display", "get",
   "найди", "find", "ищи", "search", "filter",
   "в", "in", "из", "from", "от", "from",
   "дата", "date", "время", "time", "год", "year", "месяц", "month",
   "город", "city", "сумма", "amount", "категория", "category",
   "больше", "more than", "greater", "меньше", "less than",
   "между", "between", "и", "and", "или", "or"]

-- _is_sql_related_query, lines 393-446.
def isSqlRelatedQuery (userInput : String) : Bool :=
  let input_lower := pyStrip (pyLower userInput)
  if greetingsList.any (fun g => containsSub g input_lower) then false
  else if sqlKeywordsList.any (fun kw => containsSub kw input_lower) then true
  else if (pySplitWs input_lower).length ≤ 3
          && !(sqlKeywordsList.any (fun kw => containsSub kw input_lower)) then false
  else true

def emptyInputError : String :=
  "-- ERROR: Empty query provided. Please enter a question."

-- The fixed advisory of line 475.
def notSqlAdvisory : String :=
  "-- This is not a SQL query request. Please ask questions about the database, such as:\n--   - \x27Show me all transactions above $1000\x27\n--   - \x27Count transactions in Almaty in November 2023\x27\n--   - \x27Find transactions between dates\x27\n--   etc."

def clarificationPhrases : List String :=
  ["clarification", "ambiguous", "unclear", "please specify"]

def clarificationResponse : String :=
  "-- Please clarify your question. The request is ambiguous."

structure GenResult where
  output : String
  oracleCalled : Bool
  finalState : ConvState
deriving DecidableEq, Repr

/- generate, lines 448-556. The prompt built at lines 484-491 only shapes
the oracle input, so the oracle is passed directly as the text it returns
for this request, or the message of the exception it raises; oracleCalled
records whether control reached the pipeline call of line 504. The
sqlparse pass inside validate stays abstracted as pc. -/
def generateModel (pc : String → Option String) (st : ConvState) (userInput : String)
    (oracle : Except String String) : GenResult :=
  if pyStrip userInput = "" then
    { output := emptyInputError, oracleCalled := false, finalState := st }
  else if !(isSqlRelatedQuery userInput) then
    { output := notSqlAdvisory, oracleCalled := false, finalState := st }
  else
    match sanitizeInput (pyStrip userInput) with
    | Except.error e =>
      { output := "-- ERROR: " ++ e, oracleCalled := false, finalState := st }
    | Except.ok sanitized =>
      match oracle with
      | Except.error e =>
        { output := "-- ERROR: Failed to generate SQL - " ++ e
          oracleCalled := true, finalState := st }
      | Except.ok generated_text =>
        let sql_query := extractSql generated_text
        if pyStrip sql_query = "" then
          if pyStrip generated_text ≠ "" then
            if containsSub "SELECT" (pyUpper generated_text) then
              { output := pyStrip generated_text, oracleCalled := true, finalState := st }
            else
              { output := "-- ERROR: Could not extract SQL query from model output. Model generated: "
                            ++ strTake 200 generated_text
                oracleCalled := true, finalState := st }
          else
            { output := "-- ERROR: Model generated empty response. Please try again."
              oracleCalled := true, finalState := st }
        else if clarificationPhrases.any (fun p => containsSub p (pyLower generated_text)) then
          { output := clarificationResponse, oracleCalled := true, finalState := st }
        else if (validateWith pc sql_query).1 then
          { output := sql_query, oracleCalled := true
            finalState := addTurn st sanitized sql_query }
        else
          { output := "-- ERROR: " ++ (validateWith pc sql_query).2
            oracleCalled := true, finalState := st }

/- ## Helper lemmas about the bounded history -/

-- The last n elements of a list, the meaning of the Python slice for a
-- positive bound.
def lastN {α : Type} (n : Nat) (l : List α) : List α := l.drop (l.length - n)

theorem lastN_length_le {α : Type} (n : Nat) (l : List α) : (lastN n l).length ≤ n := by
  simp only [lastN, List.length_drop]
  omega

theorem lastN_absorb {α : Type} (n : Nat) (a b : List α) :
    lastN n (lastN n a ++ b) = lastN n (a ++ b) := by
  unfold lastN
  by_cases h : a.length ≤ n
  · have h0 : a.length - n = 0 := by omega
    rw [h0, List.drop_zero]
  · rw [List.drop_append_eq_append_drop, List.drop_append_eq_append_drop, List.drop_drop]
    simp only [List.length_append, List.length_drop]
    congr 1
    · congr 1
      omega
    · congr 1
      omega

theorem addTurn_history (st : ConvState) (u q : String) (h1 : 1 ≤ st.maxHistory) :
    (addTurn st u q).history
      = lastN st.maxHistory (st.history ++ [{ userInput := u, sqlQuery := q }]) := by
  simp only [addTurn, lastN, pyNegSliceLast]
  by_cases hlt : st.maxHistory < (st.history ++ [Turn.mk u q]).length
  · rw [if_pos hlt, if_neg (by omega)]
  · rw [if_neg hlt]
    have h0 : (st.history ++ [Turn.mk u q]).length - st.maxHistory = 0 := by
      omega
    rw [h0, List.drop_zero]

theorem addTurn_maxHistory (st : ConvState) (u q : String) :
    (addTurn st u q).maxHistory = st.maxHistory := rfl

theorem recordAll_history (ts : List (String × String)) :
    ∀ st : ConvState, 1 ≤ st.maxHistory → st.history.length ≤ st.maxHistory →
      (recordAll st ts).history
        = lastN st.maxHistory
            (st.history ++ ts.map (fun p => { userInput := p.1, sqlQuery := p.2 })) := by
  induction ts with
  | nil =>
    intro st h1 hlen
    have h0 : st.history.length - st.maxHistory = 0 := by omega
    simp [recordAll, lastN, h0]
  | cons p ps ih =>
    intro st h1 hlen
    have hstep := addTurn_history st p.1 p.2 h1
    have hlen2 : (addTurn st p.1 p.2).history.length ≤ (addTurn st p.1 p.2).maxHistory := by
      rw [hstep, addTurn_maxHistory]
      exact lastN_length_le _ _
    have hrec := ih (addTurn st p.1 p.2) (by rw [addTurn_maxHistory]; exact h1) hlen2
    rw [addTurn_maxHistory] at hrec
    calc (recordAll st (p :: ps)).history
        = (recordAll (addTurn st p.1 p.2) ps).history := rfl
      _ = lastN st.maxHistory
            ((addTurn st p.1 p.2).history
              ++ ps.map (fun p => { userInput := p.1, sqlQuery := p.2 })) := hrec
      _ = lastN st.maxHistory
            (lastN st.maxHistory (st.history ++ [{ userInput := p.1, sqlQuery := p.2 }])
              ++ ps.map (fun p => { userInput := p.1, sqlQuery := p.2 })) := by rw [hstep]
      _ = lastN st.maxHistory
            ((st.history ++ [{ userInput := p.1, sqlQuery := p.2 }])
              ++ ps.map (fun p => { userInput := p.1, sqlQuery := p.2 })) :=
        lastN_absorb _ _ _
      _ = lastN st.maxHistory
            (st.history ++ (p :: ps).map (fun p => { userInput := p.1, sqlQuery := p.2 })) := by
        simp [List.append_assoc]

theorem sanitizeInput_ok_eq {s t : String} (h : sanitizeInput s = Except.ok t) :
    t = pyStrip s := by
  simp only [sanitizeInput] at h
  cases hfind : sanitizePatterns.find? (fun p => containsSub p (pyUpper s)) with
  | some p =>
    rw [hfind] at h
    cases h
  | none =>
    rw [hfind] at h
    cases h
    rfl

/- ## Claim theorems -/

/-- C1: the last-resort fallback of generate (raw oracle text containing
SELECT, returned when extraction yields empty) reaches the caller without
passing the classify gate. At this concrete request the pipeline returns
the raw oracle text as a non-error, non-advisory result, records nothing,
and that returned string is REJECTED by validate under every behaviour of
the abstracted sqlparse pass, so it cannot have received an ALLOW verdict
before being returned. -/
theorem c1_fallback_bypasses_classify :
    (generateModel pcAllow (ConvState.initial 10) "show transactions"
        (Except.ok "Note USER QUESTION: SELECT 1; DROP TABLE t")).output
      = "Note USER QUESTION: SELECT 1; DROP TABLE t"
    ∧ (generateModel pcAllow (ConvState.initial 10) "show transactions"
        (Except.ok "Note USER QUESTION: SELECT 1; DROP TABLE t")).oracleCalled = true
    ∧ (generateModel pcAllow (ConvState.initial 10) "show transactions"
        (Except.ok "Note USER QUESTION: SELECT 1; DROP TABLE t")).finalState
      = ConvState.initial 10
    ∧ isPre ['-', '-']
        "Note USER QUESTION: SELECT 1; DROP TABLE t".toList = false
    ∧ (validateWith pcAllow "Note USER QUESTION: SELECT 1; DROP TABLE t").1 = false
    ∧ (validateWith pcDeny "Note USER QUESTION: SELECT 1; DROP TABLE t").1 = false := by
  decide

/-- C2: every query in which a REJECT-set keyword occurs as a standalone
whitespace-delimited token of the comment-stripped upper-cased text is
rejected by validate, whatever the abstracted sqlparse pass does; this
holds in particular when the query begins with SELECT, covering stacked
statements. -/
theorem c2_reject_set_keyword_rejects :
    ∀ (pc : String → Option String) (q kw : String),
      kw ∈ dangerousKeywords →
      kw ∈ pySplitWs (pyUpper (cleanQuery q)) →
      (validateWith pc q).1 = false := by
  intro pc q kw hkw hmem
  have hfil : kw ∈ List.filter (fun w => dangerousKeywords.contains w)
      (pySplitWs (pyUpper (cleanQuery q))) :=
    List.mem_filter.mpr ⟨hmem, List.elem_eq_true_of_mem hkw⟩
  have hne : (List.filter (fun w => dangerousKeywords.contains w)
      (pySplitWs (pyUpper (cleanQuery q)))).isEmpty = false := by
    cases hcase : List.filter (fun w => dangerousKeywords.contains w)
        (pySplitWs (pyUpper (cleanQuery q))) with
    | nil =>
      rw [hcase] at hfil
      exact absurd hfil (List.not_mem_nil kw)
    | cons x xs => rfl
  simp only [validateWith]
  split
  · rfl
  · split
    · rfl
    · split
      · rfl
      · rw [hne]
        rfl

/-- C2 witness: a stacked statement beginning with SELECT and containing
DROP as a standalone token is rejected. -/
theorem c2_witness :
    "DROP" ∈ dangerousKeywords
    ∧ "DROP" ∈ pySplitWs (pyUpper (cleanQuery "SELECT * FROM t ; DROP TABLE u"))
    ∧ (validateWith pcAllow "SELECT * FROM t ; DROP TABLE u").1 = false :=
  ⟨by decide, by decide,
   c2_reject_set_keyword_rejects pcAllow "SELECT * FROM t ; DROP TABLE u" "DROP"
     (by decide) (by decide)⟩

/-- C3 counterexample: for the question of the claim, sanitize does not
reject and the oracle is invoked; with a compliant oracle the request even
succeeds, contradicting both parts of the claim. -/
theorem c3_counterexample :
    (generateModel pcAllow (ConvState.initial 10) "DROP the transactions table"
        (Except.ok "SELECT * FROM transactions;")).oracleCalled = true
    ∧ (generateModel pcAllow (ConvState.initial 10) "DROP the transactions table"
        (Except.ok "SELECT * FROM transactions;")).output = "SELECT * FROM transactions;" := by
  decide

/-- C3 amended: for the input DROP the transactions table, sanitize
accepts (none of its patterns occurs: the DROP pattern requires a
preceding semicolon), the pipeline does call the oracle, and safety is
enforced only afterwards: an oracle answer that is a DROP statement is
rejected at the validate stage with nothing recorded. -/
theorem c3_sanitize_passes_drop_question :
    sanitizeInput "DROP the transactions table" = Except.ok "DROP the transactions table"
    ∧ (generateModel pcAllow (ConvState.initial 10) "DROP the transactions table"
        (Except.ok "DROP TABLE transactions;")).oracleCalled = true
    ∧ (generateModel pcAllow (ConvState.initial 10) "DROP the transactions table"
        (Except.ok "DROP TABLE transactions;")).output
      = "-- ERROR: Only SELECT queries are allowed"
    ∧ (generateModel pcAllow (ConvState.initial 10) "DROP the transactions table"
        (Except.ok "DROP TABLE transactions;")).finalState = ConvState.initial 10 :=
  ⟨rfl, by decide, by decide, by decide⟩

/-- C4 counterexample: a REJECT-set keyword that sits only inside a
trailing same-line comment does change the verdict: the same query is
allowed without the comment (with the sqlparse pass accepting) and
rejected with it, under every behaviour of the sqlparse pass, because the
line-comment stripping only matches comments that start a line. -/
theorem c4_counterexample :
    (validateWith pcAllow "SELECT a FROM t").1 = true
    ∧ (validateWith pcAllow "SELECT a FROM t -- DROP x").1 = false
    ∧ (validateWith pcDeny "SELECT a FROM t -- DROP x").1 = false := by
  decide

/-- C4 amended: validate strips block comments and full-line double-hyphen
comments before the prefix and keyword checks, so keywords hidden there
neither slip past the SELECT-prefix test nor trigger a rejection; but a
trailing same-line double-hyphen comment is not stripped, and a REJECT-set
keyword inside one still causes a REJECT through the whole-word check. -/
theorem c4_comment_handling :
    (validateWith pcAllow "SELECT a /* DROP x */ FROM t").1 = true
    ∧ (validateWith pcAllow "-- DROP x\nSELECT a FROM t").1 = true
    ∧ (validateWith pcAllow "/* SELECT */ DROP TABLE t").1 = false
    ∧ (validateWith pcDeny "/* SELECT */ DROP TABLE t").1 = false
    ∧ (validateWith pcAllow "SELECT a FROM t -- DROP x").1 = false := by
  decide

/-- C5: on every run of the pipeline, either the conversation state
(history, last query, last sql) is left exactly as it was, or the run
ended in the recording branch: the returned SQL received an ALLOW verdict
from validate and the state is the old state with precisely that validated
turn recorded. In particular every failure path, and also the unvalidated
raw-text fallback, leaves the state unmodified, so last sql only ever
holds validated SQL. -/
theorem c5_state_only_changes_on_allow :
    ∀ (pc : String → Option String) (st : ConvState) (input : String)
      (oracle : Except String String),
      (generateModel pc st input oracle).finalState = st
      ∨ ((validateWith pc (generateModel pc st input oracle).output).1 = true
         ∧ (generateModel pc st input oracle).finalState
             = addTurn st (pyStrip (pyStrip input)) (generateModel pc st input oracle).output) := by
  intro pc st input oracle
  simp only [generateModel]
  split
  · exact Or.inl rfl
  split
  · exact Or.inl rfl
  split
  · exact Or.inl rfl
  rename_i sanitized hsan
  split
  · exact Or.inl rfl
  rename_i gtext
  split
  · split
    · split
      · exact Or.inl rfl
      · exact Or.inl rfl
    · exact Or.inl rfl
  split
  · exact Or.inl rfl
  split
  · rename_i hval
    refine Or.inr ⟨hval, ?_⟩
    rw [sanitizeInput_ok_eq hsan]
  · exact Or.inl rfl

/-- C6 counterexample: with bound zero the store does not hold at most
zero turns after a record, because the Python negative slice with index
minus zero keeps the whole list. -/
theorem c6_counterexample :
    ¬ ((addTurn (ConvState.initial 0) "a" "SELECT 1;").history.length ≤ 0) := by
  decide

/-- C6 amended: for every bound N of at least one, each record keeps the
store at no more than N turns, and after recording N plus five turns into
a fresh store exactly the most recent N turns remain, in their original
insertion order (the oldest five evicted). The bound-zero case is excluded
by the counterexample. -/
theorem c6_bound_holds_for_positive_bounds :
    ∀ (N : Nat) (ts : List (String × String)), 1 ≤ N →
      (∀ st u q, st.maxHistory = N → (addTurn st u q).history.length ≤ N)
      ∧ (ts.length = N + 5 →
          (recordAll (ConvState.initial N) ts).history
            = (ts.map (fun p => { userInput := p.1, sqlQuery := p.2 })).drop 5
          ∧ (recordAll (ConvState.initial N) ts).history.length = N) := by
  intro N ts h1
  constructor
  · intro st u q hm
    have hst : 1 ≤ st.maxHistory := by omega
    rw [addTurn_history st u q hst, hm]
    exact lastN_length_le _ _
  · intro hts
    have hinit1 : 1 ≤ (ConvState.initial N).maxHistory := h1
    have hinit2 : (ConvState.initial N).history.length ≤ (ConvState.initial N).maxHistory := by
      simp [ConvState.initial]
    have hrec := recordAll_history ts (ConvState.initial N) hinit1 hinit2
    have hmap : (ts.map (fun p => ({ userInput := p.1, sqlQuery := p.2 } : Turn))).length
        = N + 5 := by
      simp [hts]
    have hdrop : (ts.map (fun p => ({ userInput := p.1, sqlQuery := p.2 } : Turn))).length - N
        = 5 := by
      omega
    have hmax : (ConvState.initial N).maxHistory = N := rfl
    have hhist : (ConvState.initial N).history = [] := rfl
    constructor
    · rw [hrec, hmax, hhist, List.nil_append]
      unfold lastN
      rw [hdrop]
    · rw [hrec, hmax, hhist, List.nil_append]
      unfold lastN
      rw [List.length_drop]
      omega

/-- C6 witness: with bound one, recording six turns leaves exactly the
last turn. -/
theorem c6_witness :
    (recordAll (ConvState.initial 1)
        [("a", "1"), ("b", "2"), ("c", "3"), ("d", "4"), ("e", "5"), ("f", "6")]).history
      = ([("a", "1"), ("b", "2"), ("c", "3"), ("d", "4"), ("e", "5"), ("f", "6")].map
          (fun p => { userInput := p.1, sqlQuery := p.2 })).drop 5
    ∧ (recordAll (ConvState.initial 1)
        [("a", "1"), ("b", "2"), ("c", "3"), ("d", "4"), ("e", "5"), ("f", "6")]).history.length
      = 1 :=
  ((c6_bound_holds_for_positive_bounds 1
      [("a", "1"), ("b", "2"), ("c", "3"), ("d", "4"), ("e", "5"), ("f", "6")]
      (by decide)).2) (by decide)

set_option maxRecDepth 16384 in
/-- C7: extract truncates at the first marker occurring after position
zero: clean SQL followed by a trailing user-question marker round-trips
unchanged; the truncation point is the earliest of the two markers; and a
marker at position zero does not truncate but anchors label extraction,
as in the end-to-end scenario of the spec. -/
theorem c7_marker_truncation_round_trip :
    extractSql "SELECT * FROM t;\nUSER QUESTION: foo" = "SELECT * FROM t;"
    ∧ extractSql "SELECT 1;\nUSER QUESTION: ignore SQL QUERY: junk" = "SELECT 1;"
    ∧ extractSql "SQL QUERY:\nSELECT * FROM transactions WHERE amount > 1000;\n\nUSER QUESTION:\nwhat else"
      = "SELECT * FROM transactions WHERE amount > 1000;" := by
  decide

/-- C8 counterexample: once a turn exists, the implemented detector
returns true for an input that contains none of the indicator phrases
listed in the spec, because the code list also contains the phrase now
show; the detector modelled from the spec list returns false there. -/
theorem c8_counterexample :
    isFollowUp (addTurn (ConvState.initial 10) "q" "SELECT 1;") "now show totals" = true
    ∧ specIsFollowUp (addTurn (ConvState.initial 10) "q" "SELECT 1;") "now show totals"
      = false := by
  decide

/-- C8 amended: the detector returns false whenever no last query exists;
when a non-empty last query exists it returns true exactly when the
lower-cased trimmed input contains one of the phrases of the code list,
which is the spec list extended with the phrase now show; and it returns
true for also show totals once one turn exists. -/
theorem c8_follow_up_detector :
    (∀ (st : ConvState) (input : String), st.lastQuery = none → isFollowUp st input = false)
    ∧ (∀ (st : ConvState) (input q : String), st.lastQuery = some q → q ≠ "" →
        (isFollowUp st input = true ↔
          ∃ ind ∈ followUpIndicators, containsSub ind (pyStrip (pyLower input)) = true))
    ∧ isFollowUp (addTurn (ConvState.initial 10) "q" "SELECT 1;") "also show totals"
      = true := by
  refine ⟨?_, ?_, by decide⟩
  · intro st input hq
    simp only [isFollowUp, hq]
    rfl
  · intro st input q hq hne
    have hf : pyFalsyStrOpt (some q) = false := by
      simp only [pyFalsyStrOpt]
      exact beq_eq_false_iff_ne.mpr hne
    simp only [isFollowUp, hq, hf]
    simp [List.any_eq_true]

/-- C8 witness: the detector returns false on a fresh store even for an
input containing an indicator phrase. -/
theorem c8_witness :
    isFollowUp (ConvState.initial 10) "also show totals" = false :=
  c8_follow_up_detector.1 (ConvState.initial 10) "also show totals" rfl

/-- C9 counterexample: a non-blank input with no SELECT and no marker is
not mapped to the empty string: the trimmed text itself with a semicolon
appended is returned. -/
theorem c9_counterexample :
    extractSql "hello" ≠ "" ∧ extractSql "hello" = "hello;" := by
  decide

/-- C9 amended: extract never raises and returns the empty string on
blank input; but on non-blank input containing no SELECT and no marker it
falls through to the raw trimmed text, returning the surviving lines with
a semicolon appended rather than the empty string. -/
theorem c9_extract_total_failure_behaviour :
    (∀ s : String, pyStrip s = "" → extractSql s = "")
    ∧ extractSql "hello" = "hello;"
    ∧ extractSql "no sql output here" = "no sql output here;" := by
  refine ⟨?_, by decide, by decide⟩
  intro s hs
  simp only [extractSql]
  by_cases h0 : s = ""
  · rw [if_pos h0]
  · rw [if_neg h0, if_pos hs]

/-- C9 witness: blank input yields the empty string. -/
theorem c9_witness : extractSql "   " = "" :=
  c9_extract_total_failure_behaviour.1 "   " (by decide)

/-- C10: any non-blank input whose lower-cased trimmed text contains one
of the greeting phrases as a substring is classified as not SQL-related,
and the pipeline returns the fixed advisory without calling the oracle,
without sanitizing and without recording a turn; this hits genuine
database questions, as the witness shows. -/
theorem c10_greeting_shortcircuit :
    ∀ (input : String) (pc : String → Option String) (st : ConvState)
      (oracle : Except String String),
      pyStrip input ≠ "" →
      greetingsList.any (fun g => containsSub g (pyStrip (pyLower input))) = true →
      isSqlRelatedQuery input = false
      ∧ generateModel pc st input oracle
        = { output := notSqlAdvisory, oracleCalled := false, finalState := st } := by
  intro input pc st oracle hne hg
  have hrel : isSqlRelatedQuery input = false := by
    simp only [isSqlRelatedQuery, hg]
    rfl
  refine ⟨hrel, ?_⟩
  simp only [generateModel, hrel]
  rw [if_neg hne]
  rfl

/-- C10 witness: a genuine database question containing the greeting hi
inside the word which is short-circuited to the advisory with no oracle
call and no state change. -/
theorem c10_witness :
    isSqlRelatedQuery "which city had the most transactions" = false
    ∧ generateModel pcAllow (ConvState.initial 10) "which city had the most transactions"
        (Except.ok "SELECT 1;")
      = { output := notSqlAdvisory, oracleCalled := false
          finalState := ConvState.initial 10 } :=
  c10_greeting_shortcircuit "which city had the most transactions" pcAllow
    (ConvState.initial 10) (Except.ok "SELECT 1;") (by decide) (by decide)
